import Mathlib

/-!
Verification development for the `multimodal` Go package (xyproto/multimodal),
a builder over the Vertex AI genai SDK.  Strings are modelled as `List Char`,
byte sequences as `List Nat`, the `float32` temperature field as `ℚ` (the code
only stores and forwards it, no floating-point arithmetic occurs), and
`time.Duration` as nanoseconds (`Nat`).  External effects (file reads, HTTP
responses, per-part token counts, the generation RPC, response-part rendering)
are passed in as explicit arguments, so every function of the package becomes a
pure Lean function over those oracles.
-/

deriving instance DecidableEq for Except

namespace Multimodal

/-- White-space test mirroring Go `unicode.IsSpace` (the character classes of
Go's White_Space table). -/
def isSpace (c : Char) : Bool :=
  c = ' ' || c = '\t' || c = '\n' || c = Char.ofNat 11 || c = Char.ofNat 12 ||
  c = '\r' || c = Char.ofNat 0x85 || c = Char.ofNat 0xA0 ||
  c = Char.ofNat 0x1680 ||
  (Char.ofNat 0x2000 ≤ c && c ≤ Char.ofNat 0x200A) ||
  c = Char.ofNat 0x2028 || c = Char.ofNat 0x2029 ||
  c = Char.ofNat 0x202F || c = Char.ofNat 0x205F || c = Char.ofNat 0x3000

/-- Go `strings.TrimSpace`: drop leading and trailing white space. -/
def trimSpace (s : List Char) : List Char :=
  ((s.dropWhile isSpace).reverse.dropWhile isSpace).reverse

/-- Scan loop of Go `filepath.Ext`: walk the path backwards; stop at a path
separator; at the first dot return the suffix from that dot on.  The first
argument accumulates the characters already scanned, in forward order. -/
def extScan (acc : List Char) : List Char → List Char
  | [] => []
  | c :: rest =>
    if c = '/' then []
    else if c = '.' then c :: acc
    else extScan (c :: acc) rest

/-- Go `filepath.Ext(path)`: the suffix beginning at the final dot in the final
slash-separated element of the path, empty when there is no dot. -/
def filepathExt (path : List Char) : List Char :=
  extScan [] path.reverse

/-- Go `strings.TrimPrefix(s, ".")` as used on an extension: remove one leading
dot when present. -/
def stripExtDot : List Char → List Char
  | '.' :: rest => rest
  | s => s

/-- The single normalization the code applies to an image extension:
`"jpg"` becomes `"jpeg"`, everything else is kept as given. -/
def jpgToJpeg (e : List Char) : List Char :=
  if e = "jpg".toList then "jpeg".toList else e

/-- ASCII lower-casing, as Go `mime` applies to an extension before the second
table lookup. -/
def asciiLower (s : List Char) : List Char :=
  s.map fun c => if 'A' ≤ c && c ≤ 'Z' then Char.ofNat (c.toNat + 32) else c

/-- The builtin extension table of Go's `mime` package (`builtinTypesLower`);
platform-specific additions loaded from the OS are not part of the model. -/
def builtinTypesLower : List (List Char × List Char) :=
  [(".avif".toList, "image/avif".toList),
   (".css".toList, "text/css; charset=utf-8".toList),
   (".gif".toList, "image/gif".toList),
   (".htm".toList, "text/html; charset=utf-8".toList),
   (".html".toList, "text/html; charset=utf-8".toList),
   (".jpeg".toList, "image/jpeg".toList),
   (".jpg".toList, "image/jpeg".toList),
   (".js".toList, "text/javascript; charset=utf-8".toList),
   (".json".toList, "application/json".toList),
   (".mjs".toList, "text/javascript; charset=utf-8".toList),
   (".pdf".toList, "application/pdf".toList),
   (".png".toList, "image/png".toList),
   (".svg".toList, "image/svg+xml".toList),
   (".wasm".toList, "application/wasm".toList),
   (".webp".toList, "image/webp".toList),
   (".xml".toList, "text/xml; charset=utf-8".toList)]

/-- Association lookup in the builtin table. -/
def lookupExt (e : List Char) : Option (List Char) :=
  (builtinTypesLower.find? fun kv => kv.1 == e).map Prod.snd

/-- Go `mime.TypeByExtension`: look the extension up as given, then ASCII
lower-cased; an unknown extension yields the empty string. -/
def typeByExtension (e : List Char) : List Char :=
  match lookupExt e with
  | some t => t
  | none =>
    match lookupExt (asciiLower e) with
    | some t => t
    | none => []

/-- The genai prompt parts the package constructs: `genai.ImageData`
(format hint plus raw bytes), `genai.FileData` (MIME type plus URI),
`genai.Blob` (MIME type plus bytes) and `genai.Text`. -/
inductive Part where
  | imageData (format : List Char) (data : List Nat)
  | fileData (mimeType : List Char) (fileURI : List Char)
  | blob (mimeType : List Char) (data : List Nat)
  | text (s : List Char)
  deriving DecidableEq

/-- The `MultiModal` struct: model name, temperature, accumulated parts, and
the trim / verbose / timeout configuration. -/
structure MultiModal where
  modelName : List Char
  temperature : ℚ
  parts : List Part
  trim : Bool
  verbose : Bool
  timeout : Nat
  deriving DecidableEq

/-- `New(modelName, temperature)`: the code stores the constant `0.4` in the
temperature field (the caller's argument is not used), an empty part list,
`trim = true`, `verbose = false` and a two-minute timeout. -/
def New (modelName : List Char) (temperature : ℚ) : MultiModal :=
  { modelName := modelName, temperature := 4/10, parts := [],
    trim := true, verbose := false, timeout := 2 * 60 * 1000000000 }

/-- `SetTimeout`. -/
def SetTimeout (mm : MultiModal) (timeout : Nat) : MultiModal :=
  { mm with timeout := timeout }

/-- `SetVerbose`. -/
def SetVerbose (mm : MultiModal) (verbose : Bool) : MultiModal :=
  { mm with verbose := verbose }

/-- `SetTrim`. -/
def SetTrim (mm : MultiModal) (trim : Bool) : MultiModal :=
  { mm with trim := trim }

/-- `AddImage(filename)`: the outcome of `os.ReadFile` is passed in as
`readResult`; on a read error the error is returned and the builder is
unchanged; on success the extension is taken from the filename, the leading
dot stripped, `jpg` mapped to `jpeg`, and one `genai.ImageData` part is
appended. -/
def AddImage (mm : MultiModal) (readResult : Except (List Char) (List Nat))
    (filename : List Char) : Except (List Char) MultiModal :=
  match readResult with
  | .error e => .error e
  | .ok imageBytes =>
    let ext := stripExtDot (filepathExt filename)
    let ext := jpgToJpeg ext
    .ok { mm with parts := mm.parts ++ [Part.imageData ext imageBytes] }

/-- `AddURI(URI)`: appends one `genai.FileData` part whose MIME type is
`mime.TypeByExtension(filepath.Ext(URI))` and whose URI is the argument,
unmodified.  Total: it cannot fail. -/
def AddURI (mm : MultiModal) (URI : List Char) : MultiModal :=
  { mm with parts :=
      mm.parts ++ [Part.fileData (typeByExtension (filepathExt URI)) URI] }

/-- An HTTP response as `AddURL` observes it: status code, status text, the
`Content-Type` header as returned by `Header.Get` (empty string when the
header is missing), and the outcome of `io.ReadAll` on the body. -/
structure HTTPResponse where
  statusCode : Nat
  status : List Char
  contentType : List Char
  body : Except (List Char) (List Nat)
  deriving DecidableEq

/-- `AddURL(URL)`: the result of `http.Get` is passed in as `resp`.  Transport
failure, a status code other than 200 (`http.StatusOK`), a body read failure,
or an empty `Content-Type` header each produce an error and leave the builder
unchanged; otherwise one `genai.Blob` part with the declared MIME type and the
full body bytes is appended. -/
def AddURL (mm : MultiModal) (resp : Except (List Char) HTTPResponse)
    (URL : List Char) : Except (List Char) MultiModal :=
  match resp with
  | .error e => .error ("failed to download the file from URL: ".toList ++ e)
  | .ok r =>
    if r.statusCode ≠ 200 then .error ("bad status: ".toList ++ r.status)
    else
      match r.body with
      | .error e => .error ("failed to read the response body: ".toList ++ e)
      | .ok data =>
        if r.contentType = [] then
          .error ("could see a Content-Type header for the given URL: ".toList ++ URL)
        else
          .ok { mm with parts := mm.parts ++ [Part.blob r.contentType data] }

/-- `AddData(mimeType, data)`: appends one `genai.Blob` part; total. -/
def AddData (mm : MultiModal) (mimeType : List Char) (data : List Nat) :
    MultiModal :=
  { mm with parts := mm.parts ++ [Part.blob mimeType data] }

/-- `AddText(prompt)`: appends one `genai.Text` part; total. -/
def AddText (mm : MultiModal) (prompt : List Char) : MultiModal :=
  { mm with parts := mm.parts ++ [Part.text prompt] }

/-- The loop of `CountTokensWithClient`: walk the parts keeping a running sum;
on the first failing count return the current sum together with the error
(`return sum, err` in the source). -/
def countLoop (count : Part → Except (List Char) Int) :
    List Part → Int → Int × Option (List Char)
  | [], sum => (sum, none)
  | p :: rest, sum =>
    match count p with
    | .error e => (sum, some e)
    | .ok n => countLoop count rest (sum + n)

/-- `CountTokensWithClient`: per-part token counts come from the oracle
`count` (the `model.CountTokens` calls). -/
def CountTokensWithClient (mm : MultiModal)
    (count : Part → Except (List Char) Int) : Int × Option (List Char) :=
  countLoop count mm.parts 0

/-- `CountTextTokensWithClient`: a single count call on the given text;
`(0, err)` on failure, `(n, none)` on success. -/
def CountTextTokensWithClient (countText : Except (List Char) Int) :
    Int × Option (List Char) :=
  match countText with
  | .error e => (0, some e)
  | .ok n => (n, none)

/-- Outcome of a computation that may panic, modelling Go panics raised while
the response is shaped. -/
inductive PanicOr (α : Type) where
  | panicked (reason : List Char)
  | returned (val : α)
  deriving DecidableEq

/-- `genai.Content`: the parts slice may be nil (`none`) or a (possibly empty)
list. -/
structure Content where
  parts : Option (List (List Char))
  deriving DecidableEq

/-- `genai.Candidate`: the content pointer may be nil. -/
structure Candidate where
  content : Option Content
  deriving DecidableEq

/-- `genai.GenerateContentResponse`: a slice of candidate pointers, each
possibly nil. -/
structure GenResponse where
  candidates : List (Option Candidate)
  deriving DecidableEq

/-- The configuration `SubmitToClient` installs on the generative model:
`client.GenerativeModel(mm.modelName)` followed by
`model.SetTemperature(mm.temperature)`. -/
structure ModelConfig where
  name : List Char
  temperature : ℚ
  deriving DecidableEq

/-- The model configuration step of `SubmitToClient`. -/
def configureModel (mm : MultiModal) : ModelConfig :=
  { name := mm.modelName, temperature := mm.temperature }

/-- The body of `SubmitToClient`, before the deferred `recover` is applied:
`gen` is the outcome of `model.GenerateContent` (a transport/service error, or
a possibly-nil response), `render` is the `fmt.Sprintf("%s", part)` rendering
of the first content part, which may panic.  A generation error is wrapped; a
nil response, empty candidate slice, nil first candidate, nil content, nil or
empty parts slice each yield the empty-response error; otherwise the first
part is rendered, a newline appended, and the result trimmed when the trim
flag is set. -/
def SubmitToClientBody (mm : MultiModal)
    (gen : Except (List Char) (Option GenResponse))
    (render : List Char → PanicOr (List Char)) :
    PanicOr (Except (List Char) (List Char)) :=
  match gen with
  | .error e =>
    .returned (.error ("unable to generate contents: ".toList ++ e))
  | .ok res =>
    match res with
    | none => .returned (.error "empty response from model".toList)
    | some r =>
      match r.candidates with
      | [] => .returned (.error "empty response from model".toList)
      | none :: _ => .returned (.error "empty response from model".toList)
      | some c :: _ =>
        match c.content with
        | none => .returned (.error "empty response from model".toList)
        | some ct =>
          match ct.parts with
          | none => .returned (.error "empty response from model".toList)
          | some [] => .returned (.error "empty response from model".toList)
          | some (p :: _) =>
            match render p with
            | .panicked reason => .panicked reason
            | .returned s =>
              let result := s ++ ['\n']
              if mm.trim then .returned (.ok (trimSpace result))
              else .returned (.ok result)

/-- `SubmitToClient`: the deferred `recover` converts a panic raised in the
body into the error result `"panic occurred: <reason>"`. -/
def SubmitToClient (mm : MultiModal)
    (gen : Except (List Char) (Option GenResponse))
    (render : List Char → PanicOr (List Char)) :
    Except (List Char) (List Char) :=
  match SubmitToClientBody mm gen render with
  | .panicked reason => .error ("panic occurred: ".toList ++ reason)
  | .returned r => r

/-- `Submit`: creates a transient client (outcome passed in as
`clientResult`), wraps a creation failure, otherwise delegates to
`SubmitToClient`. -/
def Submit (mm : MultiModal) (clientResult : Except (List Char) Unit)
    (gen : Except (List Char) (Option GenResponse))
    (render : List Char → PanicOr (List Char)) :
    Except (List Char) (List Char) :=
  match clientResult with
  | .error e => .error ("unable to create client: ".toList ++ e)
  | .ok _ => SubmitToClient mm gen render

/-- One public builder operation together with the external outcomes it
observes, for reasoning about call sequences. -/
inductive Op where
  | addImage (readResult : Except (List Char) (List Nat)) (filename : List Char)
  | addURI (uri : List Char)
  | addURL (resp : Except (List Char) HTTPResponse) (url : List Char)
  | addData (mimeType : List Char) (data : List Nat)
  | addText (prompt : List Char)
  | setTrim (b : Bool)
  | setVerbose (b : Bool)
  | setTimeout (t : Nat)
  | countTokens (count : Part → Except (List Char) Int)
  | countTextTokens (countText : Except (List Char) Int)
  | submit (gen : Except (List Char) (Option GenResponse))
      (render : List Char → PanicOr (List Char))

/-- The builder state after one operation.  A failing add returns its error in
Go and leaves the receiver untouched; `CountTokensWithClient`,
`CountTextTokensWithClient` and `SubmitToClient` read the receiver but never
write it. -/
def applyOp (mm : MultiModal) : Op → MultiModal
  | .addImage rd fn =>
    match AddImage mm rd fn with
    | .ok mm' => mm'
    | .error _ => mm
  | .addURI uri => AddURI mm uri
  | .addURL resp url =>
    match AddURL mm resp url with
    | .ok mm' => mm'
    | .error _ => mm
  | .addData m d => AddData mm m d
  | .addText t => AddText mm t
  | .setTrim b => SetTrim mm b
  | .setVerbose b => SetVerbose mm b
  | .setTimeout t => SetTimeout mm t
  | .countTokens _ => mm
  | .countTextTokens _ => mm
  | .submit _ _ => mm

/-- The builder state after a sequence of operations. -/
def runOps (mm : MultiModal) (ops : List Op) : MultiModal :=
  ops.foldl applyOp mm

/-- The parts a single operation appends: one part for each successful add,
none for a failing add or a non-add operation.  Defined from the operation
alone — which part an add appends never depends on the builder state. -/
def opAppended : Op → List Part
  | .addImage (.error _) _ => []
  | .addImage (.ok bytes) fn =>
    [Part.imageData (jpgToJpeg (stripExtDot (filepathExt fn))) bytes]
  | .addURI uri => [Part.fileData (typeByExtension (filepathExt uri)) uri]
  | .addURL (.error _) _ => []
  | .addURL (.ok r) _ =>
    if r.statusCode ≠ 200 then []
    else
      match r.body with
      | .error _ => []
      | .ok data => if r.contentType = [] then [] else [Part.blob r.contentType data]
  | .addData m d => [Part.blob m d]
  | .addText t => [Part.text t]
  | .setTrim _ => []
  | .setVerbose _ => []
  | .setTimeout _ => []
  | .countTokens _ => []
  | .countTextTokens _ => []
  | .submit _ _ => []

/-- Whether an operation is an add that succeeds. -/
def isSuccessfulAdd : Op → Bool
  | .addImage (.ok _) _ => true
  | .addImage (.error _) _ => false
  | .addURI _ => true
  | .addURL (.ok r) _ =>
    r.statusCode = 200 &&
      (match r.body with
       | .error _ => false
       | .ok _ => r.contentType ≠ [])
  | .addURL (.error _) _ => false
  | .addData _ _ => true
  | .addText _ => true
  | _ => false

/-- Number of successful adds in a sequence of operations. -/
def countSuccessfulAdds (ops : List Op) : Nat :=
  ops.countP fun op => isSuccessfulAdd op

/-- Concatenation of the parts a sequence of operations appends, in call
order. -/
def appendedParts (ops : List Op) : List Part :=
  ops.flatMap opAppended

/-- A builder as the README example constructs it, reused as a concrete
instance in several witnesses below. -/
def mm0 : MultiModal := New "gemini-1.0-pro-vision".toList (4/10)

/-- A generation response whose single candidate carries the single rendered
text part `"a\n"`. -/
def respA : GenResponse :=
  { candidates := [some { content := some { parts := some ["a\n".toList] } }] }

/-- C1: the code stores the fixed default in place of the caller-supplied
temperature.  Evaluated at the failing input `New("gemini-1.0-pro-vision",
0.9)`: the builder's temperature field and the temperature installed on the
remote model by `SubmitToClient` are both `0.4`, not the caller's `0.9`. -/
theorem New_drops_caller_temperature :
    (New "gemini-1.0-pro-vision".toList (9/10)).temperature = 4/10 ∧
    (configureModel (New "gemini-1.0-pro-vision".toList (9/10))).temperature = 4/10 ∧
    (9/10 : ℚ) ≠ 4/10 :=
  ⟨rfl, rfl, by norm_num⟩

/-- C4: on a successful read `AddImage` appends exactly one `ImageBytes` part
whose encoding hint is the filename's extension with the leading dot removed
and the `jpg`-to-`jpeg` normalization applied, and whose data is exactly the
bytes read from the file; on a read failure it returns the error and appends
no part. -/
theorem addImage_appends_one_imageData (mm : MultiModal) (bytes : List Nat)
    (filename e : List Char) :
    AddImage mm (.ok bytes) filename =
      .ok { mm with parts := mm.parts ++
        [Part.imageData (jpgToJpeg (stripExtDot (filepathExt filename))) bytes] } ∧
    AddImage mm (.error e) filename = .error e :=
  ⟨rfl, rfl⟩

/-- C10: when the filename has no extension and the read succeeds, `AddImage`
does not fail and appends exactly one `ImageBytes` part whose encoding hint is
the empty string. -/
theorem addImage_no_extension (mm : MultiModal) (bytes : List Nat)
    (filename : List Char) (h : filepathExt filename = []) :
    AddImage mm (.ok bytes) filename =
      .ok { mm with parts := mm.parts ++ [Part.imageData [] bytes] } := by
  simp [AddImage, h, stripExtDot, jpgToJpeg]

/-- Witness for C10 at the concrete extension-free filename `"frog"`. -/
theorem addImage_no_extension_witness :
    AddImage mm0 (.ok [1, 2, 3]) "frog".toList =
      .ok { mm0 with parts := mm0.parts ++ [Part.imageData [] [1, 2, 3]] } :=
  addImage_no_extension mm0 [1, 2, 3] "frog".toList (by decide)

/-- C9: `AddURI` is total (it cannot fail) and appends exactly one
`RemoteReference` part whose MIME type is the standard table lookup applied to
the URI's extension and whose URI is the argument unmodified; when both table
lookups (as given and ASCII lower-cased) miss, the MIME type is empty. -/
theorem addURI_appends_reference (mm : MultiModal) (uri : List Char) :
    (AddURI mm uri).parts =
      mm.parts ++ [Part.fileData (typeByExtension (filepathExt uri)) uri] ∧
    (lookupExt (filepathExt uri) = none →
      lookupExt (asciiLower (filepathExt uri)) = none →
      typeByExtension (filepathExt uri) = []) := by
  refine ⟨rfl, fun h1 h2 => ?_⟩
  simp [typeByExtension, h1, h2]

/-- Witness for C9 at a URI with an unresolvable extension: the appended
reference keeps the URI verbatim and carries an empty MIME type. -/
theorem addURI_appends_reference_witness :
    (AddURI mm0 "gs://bucket/data.zzz".toList).parts =
      mm0.parts ++ [Part.fileData [] "gs://bucket/data.zzz".toList] := by
  have h := addURI_appends_reference mm0 "gs://bucket/data.zzz".toList
  rw [h.1, h.2 (by decide) (by decide)]

/-- C2, counterexample to the claim as stated: with three parts where the
second count call fails after the first counted 5 tokens, the code returns
the partial sum 5 alongside the error (`return sum, err`), not a discarded
(zero) sum. -/
theorem countTokens_returns_partial_sum :
    CountTokensWithClient
      { modelName := "m".toList, temperature := 4/10,
        parts := [Part.text "a".toList, Part.text "b".toList, Part.text "c".toList],
        trim := true, verbose := false, timeout := 0 }
      (fun p => if p = Part.text "a".toList then .ok 5
                else .error "count failed".toList) =
      (5, some "count failed".toList) ∧ (5 : Int) ≠ 0 := by
  constructor
  · decide
  · decide

/-- Auxiliary: the counting loop run on a prefix of successful counts followed
by a failing part returns the accumulator plus the prefix's counts, paired
with the failing part's error. -/
theorem countLoop_first_error (count : Part → Except (List Char) Int)
    (p : Part) (post : List Part) (e : List Char)
    (hp : count p = .error e) :
    ∀ (pre : List Part) (ns : List Int),
      List.Forall₂ (fun q n => count q = Except.ok n) pre ns →
      ∀ acc : Int, countLoop count (pre ++ p :: post) acc = (acc + ns.sum, some e) := by
  intro pre ns h
  induction h with
  | nil => intro acc; simp [countLoop, hp]
  | cons hqn _ ih =>
    intro acc
    simp only [List.cons_append, countLoop, hqn, List.append_eq]
    rw [ih]
    simp [add_assoc]

/-- C2, amended: `CountTokensWithClient` stops at the first failing part and
returns that part's error, paired with the partial sum accumulated over the
preceding parts (the sum is returned alongside the error, not discarded). -/
theorem countTokens_stops_at_first_failure (mm : MultiModal)
    (count : Part → Except (List Char) Int) (pre post : List Part) (p : Part)
    (ns : List Int) (e : List Char)
    (hparts : mm.parts = pre ++ p :: post)
    (hpre : List.Forall₂ (fun q n => count q = Except.ok n) pre ns)
    (hp : count p = Except.error e) :
    CountTokensWithClient mm count = (ns.sum, some e) := by
  rw [CountTokensWithClient, hparts, countLoop_first_error count p post e hp pre ns hpre 0]
  simp

/-- Witness for the amended C2 on a concrete three-part builder whose second
count call fails. -/
theorem countTokens_stops_at_first_failure_witness :
    CountTokensWithClient
      { modelName := [], temperature := 4/10,
        parts := [Part.text ['a'], Part.text ['b'], Part.text ['c']],
        trim := true, verbose := false, timeout := 0 }
      (fun p => if p = Part.text ['a'] then .ok 7 else .error ['X']) =
      (7, some ['X']) := by
  have h := countTokens_stops_at_first_failure
    { modelName := [], temperature := 4/10,
      parts := [Part.text ['a'], Part.text ['b'], Part.text ['c']],
      trim := true, verbose := false, timeout := 0 }
    (fun p => if p = Part.text ['a'] then .ok 7 else .error ['X'])
    [Part.text ['a']] [Part.text ['c']] (Part.text ['b']) [7] ['X']
    rfl (List.Forall₂.cons (by decide) List.Forall₂.nil) (by decide)
  simpa using h

/-- C3, counterexample to the claim as stated: a 201 Created response (a 2xx
success) with a `Content-Type` header and a readable body is rejected by the
code with a bad-status error — the code compares against 200 exactly, not
against the 2xx class — so no part is appended where the claim requires one. -/
theorem addURL_rejects_201_created :
    AddURL mm0
      (.ok { statusCode := 201, status := "201 Created".toList,
             contentType := "text/plain".toList, body := .ok [1, 2, 3] })
      "http://example.com/x".toList =
      .error ("bad status: ".toList ++ "201 Created".toList) ∧
    200 ≤ 201 ∧ 201 < 300 ∧ "text/plain".toList ≠ [] := by
  refine ⟨by decide, by decide, by decide, by decide⟩

/-- C3, amended: `AddURL` succeeds exactly on a transported response with
status code 200, a readable body and a nonempty `Content-Type` header, and
then appends exactly one `Blob` part with the declared MIME type and the full
body bytes; on a transport error, a status other than 200, a body read
failure, or a missing `Content-Type` header it returns an error and the
builder is unchanged (no part is appended). -/
theorem addURL_status200_contract (mm : MultiModal)
    (resp : Except (List Char) HTTPResponse) (url : List Char) :
    (∀ r data, resp = Except.ok r → r.statusCode = 200 →
      r.body = Except.ok data → r.contentType ≠ [] →
      AddURL mm resp url =
        .ok { mm with parts := mm.parts ++ [Part.blob r.contentType data] }) ∧
    (((∃ e, resp = Except.error e) ∨
      ∃ r, resp = Except.ok r ∧
        (r.statusCode ≠ 200 ∨ (∃ e, r.body = Except.error e) ∨
          r.contentType = [])) →
      ∃ e, AddURL mm resp url = Except.error e) := by
  constructor
  · rintro r data rfl h200 hbody hct
    simp [AddURL, h200, hbody, hct]
  · rintro (⟨e, rfl⟩ | ⟨r, rfl, h⟩)
    · exact ⟨_, rfl⟩
    · rcases h with h200 | ⟨e, he⟩ | hct
      · exact ⟨"bad status: ".toList ++ r.status, by simp [AddURL, h200]⟩
      · by_cases h200 : r.statusCode = 200
        · exact ⟨"failed to read the response body: ".toList ++ e,
            by simp [AddURL, h200, he]⟩
        · exact ⟨"bad status: ".toList ++ r.status, by simp [AddURL, h200]⟩
      · by_cases h200 : r.statusCode = 200
        · cases hbody : r.body with
          | error e =>
            exact ⟨"failed to read the response body: ".toList ++ e,
              by simp [AddURL, h200, hbody]⟩
          | ok data =>
            exact ⟨"could see a Content-Type header for the given URL: ".toList ++ url,
              by simp [AddURL, h200, hbody, hct]⟩
        · exact ⟨"bad status: ".toList ++ r.status, by simp [AddURL, h200]⟩

/-- Witness for the amended C3 at a concrete 200 response with a
`Content-Type` header. -/
theorem addURL_status200_contract_witness :
    AddURL mm0
      (.ok { statusCode := 200, status := "200 OK".toList,
             contentType := "text/plain".toList, body := .ok [7] })
      "http://example.com/y".toList =
      .ok { mm0 with parts := mm0.parts ++ [Part.blob "text/plain".toList [7]] } :=
  (addURL_status200_contract mm0
    (.ok { statusCode := 200, status := "200 OK".toList,
           contentType := "text/plain".toList, body := .ok [7] })
    "http://example.com/y".toList).1 _ [7] rfl rfl rfl (by decide)

/-- Auxiliary: appending a newline does not change the trimmed string, the
newline being white space. -/
theorem trimSpace_append_newline (s : List Char) :
    trimSpace (s ++ ['\n']) = trimSpace s := by
  induction s with
  | nil => decide
  | cons c cs ih =>
    by_cases h : isSpace c
    · simpa [trimSpace, List.dropWhile_cons, h] using ih
    · simp [trimSpace, List.dropWhile_cons, h, List.reverse_append,
        show isSpace '\n' = true from by decide]

/-- C5, counterexample to the claim as stated: with trim disabled and a
rendered response text that itself ends in a newline, the returned string is
the rendered text plus the appended newline and therefore ends in two
newlines, not exactly one. -/
theorem submit_no_trim_two_trailing_newlines :
    SubmitToClient (SetTrim mm0 false) (.ok (some respA))
      (fun p => .returned p) = .ok ['a', '\n', '\n'] ∧
    ['a', '\n', '\n'].getLast? = some '\n' ∧
    ['a', '\n', '\n'].dropLast.getLast? = some '\n' := by
  refine ⟨by decide, by decide, by decide⟩

/-- C5, amended: when the first content part renders to `s`, `SubmitToClient`
with the trim flag set returns `s` stripped of leading and trailing white
space (the appended newline being absorbed by the stripping), and with trim
disabled returns exactly `s` with one newline appended — hence exactly one
trailing newline when `s` itself does not end in white space, but more when
it does. -/
theorem submit_trim_behavior (mm : MultiModal) (r : GenResponse)
    (c : Candidate) (ct : Content) (p s : List Char) (ps : List (List Char))
    (cs : List (Option Candidate))
    (render : List Char → PanicOr (List Char))
    (hcs : r.candidates = some c :: cs)
    (hct : c.content = some ct)
    (hps : ct.parts = some (p :: ps))
    (hr : render p = .returned s) :
    SubmitToClient mm (.ok (some r)) render =
      .ok (if mm.trim then trimSpace s else s ++ ['\n']) := by
  rw [SubmitToClient, SubmitToClientBody]
  simp only [hcs, hct, hps, hr]
  cases htrim : mm.trim with
  | true => simp [htrim, trimSpace_append_newline]
  | false => simp [htrim]

/-- Witness for the amended C5: the response part `"a\n"` submitted with trim
enabled comes back stripped to `"a"`. -/
theorem submit_trim_behavior_witness :
    SubmitToClient mm0 (.ok (some respA)) (fun p => .returned p) =
      .ok ['a'] := by
  rw [submit_trim_behavior mm0 respA
    { content := some { parts := some ["a\n".toList] } }
    { parts := some ["a\n".toList] } "a\n".toList "a\n".toList [] []
    (fun p => .returned p) rfl rfl rfl rfl]
  decide

/-- C6: for every degenerate response shape — request succeeded but the
response is nil, has no candidates, a nil first candidate, no content, a nil
parts slice, or an empty parts slice — `SubmitToClient` returns the
empty-response error rather than crashing. -/
theorem submit_empty_response_error (mm : MultiModal)
    (render : List Char → PanicOr (List Char)) (res : Option GenResponse)
    (h : res = none ∨ ∃ r, res = some r ∧
      (r.candidates = [] ∨ (∃ cs, r.candidates = none :: cs) ∨
        ∃ c cs, r.candidates = some c :: cs ∧
          (c.content = none ∨ ∃ ct, c.content = some ct ∧
            (ct.parts = none ∨ ct.parts = some [])))) :
    SubmitToClient mm (.ok res) render =
      .error "empty response from model".toList := by
  rcases h with rfl | ⟨r, rfl, hcand⟩
  · rfl
  · rcases hcand with hc | ⟨cs, hc⟩ | ⟨c, cs, hc, hcont⟩
    · simp [SubmitToClient, SubmitToClientBody, hc]
    · simp [SubmitToClient, SubmitToClientBody, hc]
    · rcases hcont with hcont | ⟨ct, hcont, hp⟩
      · simp [SubmitToClient, SubmitToClientBody, hc, hcont]
      · rcases hp with hp | hp <;>
          simp [SubmitToClient, SubmitToClientBody, hc, hcont, hp]

/-- Witness for C6 at a response with zero candidates. -/
theorem submit_empty_response_error_witness :
    SubmitToClient mm0 (.ok (some { candidates := [] }))
      (fun p => .returned p) =
      .error "empty response from model".toList :=
  submit_empty_response_error mm0 (fun p => .returned p)
    (some { candidates := [] }) (Or.inr ⟨_, rfl, Or.inl rfl⟩)

/-- C7: the deferred recover converts any panic raised while shaping the
response into the regular error result `panic occurred: <reason>`, and
`SubmitToClient` always produces exactly one result or one error (its outcome
is one of the two, never an uncontrolled propagation). -/
theorem submit_recovers_panic (mm : MultiModal)
    (gen : Except (List Char) (Option GenResponse))
    (render : List Char → PanicOr (List Char)) :
    (∀ reason, SubmitToClientBody mm gen render = .panicked reason →
      SubmitToClient mm gen render =
        .error ("panic occurred: ".toList ++ reason)) ∧
    ((∃ s, SubmitToClient mm gen render = .ok s) ∨
      (∃ e, SubmitToClient mm gen render = .error e)) := by
  constructor
  · intro reason h
    simp [SubmitToClient, h]
  · cases hres : SubmitToClient mm gen render with
    | ok s => exact Or.inl ⟨s, rfl⟩
    | error e => exact Or.inr ⟨e, rfl⟩

/-- Witness for C7: a rendering step that panics with reason `boom` surfaces
as the error `panic occurred: boom`. -/
theorem submit_recovers_panic_witness :
    SubmitToClient mm0 (.ok (some respA))
      (fun _ => .panicked "boom".toList) =
      .error ("panic occurred: ".toList ++ "boom".toList) :=
  (submit_recovers_panic mm0 (.ok (some respA))
    (fun _ => .panicked "boom".toList)).1 "boom".toList (by decide)

/-- Auxiliary: a single operation leaves the builder's part list a prefix of
the new one, appending exactly the parts `opAppended` lists for it. -/
theorem applyOp_parts (mm : MultiModal) (op : Op) :
    (applyOp mm op).parts = mm.parts ++ opAppended op := by
  cases op with
  | addImage rd fn => cases rd <;> simp [applyOp, AddImage, opAppended]
  | addURI uri => simp [applyOp, AddURI, opAppended]
  | addURL resp url =>
    cases resp with
    | error e => simp [applyOp, AddURL, opAppended]
    | ok r =>
      by_cases h200 : r.statusCode = 200
      · cases hbody : r.body with
        | error e => simp [applyOp, AddURL, opAppended, h200, hbody]
        | ok data =>
          by_cases hct : r.contentType = [] <;>
            simp [applyOp, AddURL, opAppended, h200, hbody, hct]
      · simp [applyOp, AddURL, opAppended, h200]
  | addData m d => simp [applyOp, AddData, opAppended]
  | addText t => simp [applyOp, AddText, opAppended]
  | setTrim b => simp [applyOp, SetTrim, opAppended]
  | setVerbose b => simp [applyOp, SetVerbose, opAppended]
  | setTimeout t => simp [applyOp, SetTimeout, opAppended]
  | countTokens count => simp [applyOp, opAppended]
  | countTextTokens ct => simp [applyOp, opAppended]
  | submit gen render => simp [applyOp, opAppended]

/-- Auxiliary: a successful add appends exactly one part, every other
operation (or failing add) appends none. -/
theorem opAppended_length (op : Op) :
    (opAppended op).length = if isSuccessfulAdd op then 1 else 0 := by
  cases op with
  | addImage rd fn => cases rd <;> simp [opAppended, isSuccessfulAdd]
  | addURL resp url =>
    cases resp with
    | error e => simp [opAppended, isSuccessfulAdd]
    | ok r =>
      by_cases h200 : r.statusCode = 200
      · cases hbody : r.body with
        | error e => simp [opAppended, isSuccessfulAdd, h200, hbody]
        | ok data =>
          by_cases hct : r.contentType = [] <;>
            simp [opAppended, isSuccessfulAdd, h200, hbody, hct]
      · simp [opAppended, isSuccessfulAdd, h200]
  | _ => simp [opAppended, isSuccessfulAdd]

/-- C8: the part sequence is append-only.  After any sequence of operations
the parts are the initial parts followed by the appended parts in call order
(no reordering, no removal; setters, token counting and submission leave the
sequence unchanged, so the same builder can be resubmitted), and the number
of appended parts equals the number of successful add-calls. -/
theorem parts_append_only (mm : MultiModal) (ops : List Op) :
    (runOps mm ops).parts = mm.parts ++ appendedParts ops ∧
    (appendedParts ops).length = countSuccessfulAdds ops := by
  constructor
  · induction ops generalizing mm with
    | nil => simp [runOps, appendedParts]
    | cons op rest ih =>
      have h1 : runOps mm (op :: rest) = runOps (applyOp mm op) rest := rfl
      rw [h1, ih (applyOp mm op), applyOp_parts]
      simp [appendedParts, List.flatMap_cons, List.append_assoc]
  · induction ops with
    | nil => simp [appendedParts, countSuccessfulAdds]
    | cons op rest ih =>
      rw [appendedParts, List.flatMap_cons, List.length_append,
        countSuccessfulAdds, List.countP_cons]
      rw [appendedParts, countSuccessfulAdds] at ih
      rw [ih, opAppended_length]
      cases h : isSuccessfulAdd op <;> simp [h] <;> omega

end Multimodal
